import Mathlib

/-!
Shallow embedding of src/src/controller/motion/motion.controller.js
(camera.ui motion controller): the debounce resolver handleMotion, the
HTTP request normalizer and the MQTT message normalizer, together with
theorems settling the specification claims.

Modelling conventions:
* JS Map objects (the motion timer map, the topic map) are association
  lists with string keys; get is the first matching entry, delete keeps
  only the non-matching entries, set appends a fresh entry (in the code a
  set only ever happens when get returned nothing, so no update-in-place
  case arises).
* A timer handle is represented by the armed duration in seconds (the
  value passed to setTimeout divided by 1000); the claims only depend on
  presence or absence of an entry and on which entry is stored.
* Side effects are made explicit: the controller emit of the generic
  external notification and the EventController.handle forward are
  returned as lists of call tuples.
* decodeURIComponent is not modelled (identity on the inputs considered
  by the claims); the node url parse is abstracted by handing the
  pathname and query components, each possibly absent, to the handler.
-/

namespace MotionControllerModel

/-- Single quote character, used to build the camera-not-found message. -/
def squote : String := String.singleton (Char.ofNat 39)

/-- CameraConfig entry of the camera registry: motionTimeout is a JS
number, kept as an integer since the code only compares it with 0. -/
structure Camera where
  name : String
  recordOnMovement : Bool
  motionTimeout : Int
  deriving DecidableEq, Repr

/-- PresenceState read from the settings database: the atHome flag and
the exclusion list (generalSettings.exclude). -/
structure GeneralSettings where
  atHome : Bool
  exclude : List String
  deriving DecidableEq, Repr

/-- Result shape returned to the adapters. -/
structure MotionResult where
  error : Bool
  message : String
  deriving DecidableEq, Repr

/-- The motionTimers map: camera name to armed timer (duration in
seconds). Absence of an entry is state IDLE, presence is ARMED. -/
abbrev Timers := List (String × Int)

/-- Map.get on the motion timer map. -/
def timersGet (motionTimers : Timers) (cameraName : String) : Option Int :=
  (motionTimers.find? (fun entry => entry.1 == cameraName)).map (fun entry => entry.2)

/-- Map.delete on the motion timer map. -/
def timersDelete (motionTimers : Timers) (cameraName : String) : Timers :=
  motionTimers.filter (fun entry => entry.1 != cameraName)

/-- Map.set on the motion timer map; the code only sets a key whose get
returned nothing, so appending a fresh entry is faithful. -/
def timersSet (motionTimers : Timers) (cameraName : String) (seconds : Int) : Timers :=
  timersDelete motionTimers cameraName ++ [(cameraName, seconds)]

/-- Output of one handleMotion call: the returned result, the timer map
after the call, the generic controller emit calls (cameraName,
triggerType, state) and the EventController.handle forwards
(triggerType, cameraName, state). -/
structure MotionOutput where
  result : MotionResult
  timers : Timers
  emits : List (String × String × Bool)
  sink : List (String × String × Bool)
  deriving DecidableEq, Repr

/-- getCamera: first camera of the registry with the given name (the
null guard of the source is vacuous here since the list holds records). -/
def getCamera (cameras : List Camera) (cameraName : String) : Option Camera :=
  cameras.find? (fun camera => camera.name == cameraName)

/-- handleMotion, translated line by line from the source (lines 61 to
118): camera lookup, presence policy, generic emit, then the debounce
branch on the motion timer map. -/
def handleMotion (cameras : List Camera) (settings : GeneralSettings)
    (triggerType cameraName : String) (state : Bool) (motionTimers : Timers) :
    MotionOutput :=
  match getCamera cameras cameraName with
  | some camera =>
    let atHome := settings.atHome
    let cameraExcluded := settings.exclude.contains cameraName
    if atHome && !cameraExcluded then
      { result :=
          { error := false
            message := "Skip motion trigger. At Home is active and " ++ cameraName ++
              " is not excluded!" }
        timers := motionTimers, emits := [], sink := [] }
    else
      let emits := [(cameraName, triggerType, state)]
      if camera.recordOnMovement then
        let timeoutConfig : Int := if camera.motionTimeout >= 0 then camera.motionTimeout else 1
        match timersGet motionTimers camera.name with
        | some _ =>
          let timersAfter := timersDelete motionTimers camera.name
          if state then
            { result := { error := false, message := "Skip motion event, timeout active!" },
              timers := timersAfter, emits := emits, sink := [] }
          else
            { result := { error := false, message := "Handled through extern controller" },
              timers := timersAfter, emits := emits,
              sink := [(triggerType, cameraName, state)] }
        | none =>
          let timersAfter :=
            if state && decide (0 < timeoutConfig) then
              timersSet motionTimers camera.name timeoutConfig
            else motionTimers
          { result := { error := false, message := "Handled through intern controller" },
            timers := timersAfter, emits := emits,
            sink := [(triggerType, cameraName, state)] }
      else
        { result := { error := false, message := "Handled through extern controller" },
          timers := motionTimers, emits := emits, sink := [] }
  | none =>
    { result :=
        { error := true
          message := "Camera " ++ squote ++ cameraName ++ squote ++ " not found" }
      timers := motionTimers, emits := [], sink := [] }

/-- Natural expiry of an armed timer (the setTimeout callback, lines 97
to 100): it only removes the entry, forwarding nothing. -/
def motionTimerExpire (motionTimers : Timers) (cameraName : String) : Timers :=
  timersDelete motionTimers cameraName

/-- Fold of handleMotion over a list of (triggerType, cameraName, state)
triggers, tracking only the timer map. -/
def runTriggers (cameras : List Camera) (settings : GeneralSettings)
    (triggers : List (String × String × Bool)) (motionTimers : Timers) : Timers :=
  triggers.foldl
    (fun tm t => (handleMotion cameras settings t.1 t.2.1 t.2.2 tm).timers)
    motionTimers

/-! HTTP adapter (startHttpServer request handler, lines 158 to 189). -/

/-- Parsed view of an incoming HTTP request: the raw url (absent models a
request without url), and the pathname and query components produced by
the node url parse (absent models a null component). -/
structure HttpRequest where
  url : Option String
  pathname : Option String
  query : Option String
  deriving DecidableEq, Repr

/-- JS truthiness of a nullable string: null, undefined and the empty
string are falsy. -/
def jsTruthy : Option String → Bool
  | none => false
  | some s => s != ""

/-- JS String.prototype.includes: the pattern occurs as a contiguous
substring, stated on the character lists of the strings. -/
def jsIncludes (s pat : String) : Bool := decide (pat.data <:+: s.data)

/-- JS String.prototype.split with a one-character separator: every
occurrence of the separator character splits, stated on the character
list of the string. -/
def jsSplitChar (s : String) (sep : Char) : List (List Char) := s.data.splitOn sep

/-- Normalization performed by the HTTP request handler (lines 166 to
178): requires a truthy url, pathname and query, then maps the pathname
to the trigger type and state; the camera name is the query string
(percent-decoding not modelled). Returns (triggerType, cameraName,
state), or nothing when the request is malformed. -/
def httpNormalize (request : HttpRequest) : Option (String × String × Bool) :=
  if jsTruthy request.url && (jsTruthy request.pathname && jsTruthy request.query) then
    let pathname := request.pathname.getD ""
    let cameraName := request.query.getD ""
    let triggerType0 : String :=
      if jsIncludes pathname "/reset" then "reset"
      else String.mk ((jsSplitChar pathname '/').getD 1 [])
    let state :=
      if triggerType0 == "dorbell" then true
      else if triggerType0 == "reset" then false
      else true
    let triggerType := if triggerType0 == "reset" then "motion" else triggerType0
    some (triggerType, cameraName, state)
  else
    none

/-- Full HTTP request handler: hands the normalized trigger to
handleMotion, or keeps the malformed-URL result. The second component
lists the calls handed to the resolver. -/
def httpOnRequest (cameras : List Camera) (settings : GeneralSettings)
    (request : HttpRequest) (motionTimers : Timers) :
    MotionOutput × List (String × String × Bool) :=
  match httpNormalize request with
  | some (triggerType, cameraName, state) =>
    (handleMotion cameras settings triggerType cameraName state motionTimers,
      [(triggerType, cameraName, state)])
  | none =>
    ({ result := { error := true, message := "Malformed URL " ++ request.url.getD "undefined" }
       timers := motionTimers, emits := [], sink := [] }, [])

/-! MQTT adapter (startMqttClient message handler, lines 221 to 265). -/

/-- TopicMapping entry of the configured topics map. -/
structure TopicMapping where
  camera : String
  motion : Bool
  reset : Bool
  motionMessage : String
  motionResetMessage : String
  deriving DecidableEq, Repr

/-- Map.get on the topics map. -/
def topicsGet (topics : List (String × TopicMapping)) (topic : String) : Option TopicMapping :=
  (topics.find? (fun entry => entry.1 == topic)).map (fun entry => entry.2)

/-- Normalization performed by the MQTT message handler (lines 229 to
248): looks up the topic mapping, derives the trigger type from
mapping.motion and the state from the payload; the state is absent when
the payload matches neither configured message. Returns (triggerType,
cameraName, state?), or nothing when the topic is unmapped. -/
def mqttNormalize (topics : List (String × TopicMapping)) (topic message : String) :
    Option (String × String × Option Bool) :=
  match topicsGet topics topic with
  | some mapping =>
    let triggerType := if mapping.motion then "motion" else "doorbell"
    let state : Option Bool :=
      if triggerType == "doorbell" then some true
      else if mapping.reset then
        if message == mapping.motionResetMessage then some false else none
      else if message == mapping.motionMessage then some true
      else if message == mapping.motionResetMessage then some false
      else none
    some (triggerType, mapping.camera, state)
  | none => none

/-- Full MQTT message handler: hands a resolved trigger to handleMotion;
an unresolved state or an unmapped topic only produces a diagnostic
result. The second component lists the calls handed to the resolver. -/
def mqttOnMessage (cameras : List Camera) (settings : GeneralSettings)
    (topics : List (String × TopicMapping)) (topic message : String)
    (motionTimers : Timers) : MotionOutput × List (String × String × Bool) :=
  match mqttNormalize topics topic message with
  | some (triggerType, cameraName, some state) =>
    (handleMotion cameras settings triggerType cameraName state motionTimers,
      [(triggerType, cameraName, state)])
  | some (_, _, none) =>
    ({ result :=
         { error := true
           message := "The incoming MQTT message (" ++ message ++ ") for the topic (" ++
             topic ++ ") was not the same as set in config.json. Skip..." }
       timers := motionTimers, emits := [], sink := [] }, [])
  | none =>
    ({ result :=
         { error := true
           message := "Can not assign the MQTT topic (" ++ topic ++ ") to a camera!" }
       timers := motionTimers, emits := [], sink := [] }, [])

/-! Helper lemmas about the registry lookup and the timer map. -/

/-- A successful registry lookup returns a camera carrying the searched
name. -/
theorem getCamera_name {cameras : List Camera} {cameraName : String} {camera : Camera}
    (h : getCamera cameras cameraName = some camera) : camera.name = cameraName := by
  have := List.find?_some h
  simpa using this

/-- A key is absent from the timer map exactly when no entry carries it. -/
theorem timersGet_eq_none_iff (t : Timers) (n : String) :
    timersGet t n = none ↔ ∀ entry ∈ t, entry.1 ≠ n := by
  simp [timersGet, List.find?_eq_none]

/-- Deleting a key leaves the map without that key. -/
theorem timersGet_delete_self (t : Timers) (n : String) :
    timersGet (timersDelete t n) n = none := by
  rw [timersGet_eq_none_iff]
  intro entry he
  have := (List.mem_filter.mp he).2
  simpa using this

/-- Deleting any key preserves the absence of a key. -/
theorem timersGet_delete_of_none {t : Timers} {n : String} (k : String)
    (h : timersGet t n = none) : timersGet (timersDelete t k) n = none := by
  rw [timersGet_eq_none_iff] at h ⊢
  intro entry he
  exact h entry (List.mem_of_mem_filter he)

/-- Setting a different key preserves the absence of a key. -/
theorem timersGet_set_of_none {t : Timers} {n k : String} (v : Int)
    (hk : k ≠ n) (h : timersGet t n = none) : timersGet (timersSet t k v) n = none := by
  rw [timersGet_eq_none_iff]
  intro entry he
  rcases List.mem_append.mp he with h1 | h2
  · exact (timersGet_eq_none_iff _ _).mp (timersGet_delete_of_none k h) entry h1
  · have : entry = (k, v) := List.mem_singleton.mp h2
    rw [this]
    exact hk

/-- A list intercalated after its head extends the head. -/
theorem intercalate_cons_head (b : List Char) (t : List (List Char)) :
    ∃ r, List.intercalate ['/'] (b :: t) = b ++ r := by
  cases t with
  | nil => exact ⟨[], by simp [List.intercalate]⟩
  | cons c tl =>
    exact ⟨['/'] ++ List.intercalate ['/'] (c :: tl),
      by simp [List.intercalate, List.intersperse_cons_cons]⟩

/-- A pathname that does not contain the substring /reset cannot have
reset as the segment after the first slash: the dead reset comparison of
the state computation in the HTTP handler is unreachable once the
includes test failed. -/
theorem seg1_reset_of_not_includes {p : String}
    (h : jsIncludes p "/reset" = false) :
    String.mk ((jsSplitChar p '/').getD 1 []) ≠ "reset" := by
  intro hseg
  have hchars := congrArg String.data hseg
  simp only [jsSplitChar] at hchars
  have hni : ¬ (("/reset" : String).data <:+: p.data) := by
    simpa [jsIncludes] using h
  have hrec := List.intercalate_splitOn p.data '/'
  rcases hp : p.data.splitOn '/' with _ | ⟨a, t1⟩
  · exact absurd hp (by simpa [List.splitOn] using List.splitOnP_ne_nil _ p.data)
  · rcases t1 with _ | ⟨b, t⟩
    · rw [hp] at hchars
      simp at hchars
    · rw [hp] at hchars hrec
      have hb : b = ("reset" : String).data := by simpa using hchars
      obtain ⟨r, hr⟩ := intercalate_cons_head b t
      apply hni
      refine ⟨a, r, ?_⟩
      have hstep : List.intercalate ['/'] (a :: b :: t) =
          a ++ ['/'] ++ List.intercalate ['/'] (b :: t) := by
        simp [List.intercalate, List.intersperse_cons_cons]
      rw [hstep, hr] at hrec
      rw [← hrec, hb]
      simp

/-! Branch characterizations of handleMotion. In each, the camera is
known (hc), and hns states that the presence policy does not suppress:
the atHome flag forces the camera to be excluded. -/

/-- ARMED camera, state true: the result is the timeout-active skip, the
timer entry is deleted, nothing reaches the event sink. -/
theorem handleMotion_armed_true (cameras : List Camera) (settings : GeneralSettings)
    (tt cname : String) (timers : Timers) (cam : Camera) (d : Int)
    (hc : getCamera cameras cname = some cam)
    (hrom : cam.recordOnMovement = true)
    (hns : settings.atHome = true → cname ∈ settings.exclude)
    (harmed : timersGet timers cam.name = some d) :
    handleMotion cameras settings tt cname true timers =
      { result := { error := false, message := "Skip motion event, timeout active!" }
        timers := timersDelete timers cam.name
        emits := [(cname, tt, true)], sink := [] } := by
  unfold handleMotion
  rw [hc]
  simp [hrom, harmed]
  exact hns

/-- ARMED camera, state false: the timer entry is deleted, the reset is
forwarded to the event sink, the result keeps the extern message. -/
theorem handleMotion_armed_false (cameras : List Camera) (settings : GeneralSettings)
    (tt cname : String) (timers : Timers) (cam : Camera) (d : Int)
    (hc : getCamera cameras cname = some cam)
    (hrom : cam.recordOnMovement = true)
    (hns : settings.atHome = true → cname ∈ settings.exclude)
    (harmed : timersGet timers cam.name = some d) :
    handleMotion cameras settings tt cname false timers =
      { result := { error := false, message := "Handled through extern controller" }
        timers := timersDelete timers cam.name
        emits := [(cname, tt, false)], sink := [(tt, cname, false)] } := by
  unfold handleMotion
  rw [hc]
  simp [hrom, harmed]
  exact hns

/-- IDLE camera: the trigger is forwarded to the event sink, the intern
message is reported, and a timer is armed exactly for a positive state
with a positive effective timeout. -/
theorem handleMotion_idle (cameras : List Camera) (settings : GeneralSettings)
    (tt cname : String) (st : Bool) (timers : Timers) (cam : Camera)
    (hc : getCamera cameras cname = some cam)
    (hrom : cam.recordOnMovement = true)
    (hns : settings.atHome = true → cname ∈ settings.exclude)
    (hidle : timersGet timers cam.name = none) :
    handleMotion cameras settings tt cname st timers =
      { result := { error := false, message := "Handled through intern controller" }
        timers :=
          if st && decide (0 < (if cam.motionTimeout >= 0 then cam.motionTimeout else 1)) then
            timersSet timers cam.name (if cam.motionTimeout >= 0 then cam.motionTimeout else 1)
          else timers
        emits := [(cname, tt, st)], sink := [(tt, cname, st)] } := by
  unfold handleMotion
  rw [hc]
  simp [hrom, hidle]
  exact hns

/-- One handleMotion call on any trigger whatsoever never creates a
timer entry for a camera whose lookup yields motionTimeout zero. -/
theorem handleMotion_preserves_absent {cameras : List Camera} {cname : String} {cam : Camera}
    (settings : GeneralSettings) (tt cn : String) (st : Bool) (timers : Timers)
    (hc : getCamera cameras cname = some cam)
    (hmt : cam.motionTimeout = 0)
    (habs : timersGet timers cam.name = none) :
    timersGet (handleMotion cameras settings tt cn st timers).timers cam.name = none := by
  unfold handleMotion
  cases hcn : getCamera cameras cn with
  | none => exact habs
  | some c =>
    by_cases hpr : settings.atHome = true ∧ cn ∉ settings.exclude
    · simpa [hpr.1, hpr.2] using habs
    · by_cases hr : c.recordOnMovement = true
      · cases htm : timersGet timers c.name with
        | some d =>
          cases st <;> simp [hpr, hr, htm, timersGet_delete_of_none c.name habs]
        | none =>
          by_cases hkey : c.name = cam.name
          · have hcn2 : cn = cname := by
              have h1 := getCamera_name hcn
              have h2 := getCamera_name hc
              rw [← h1, hkey, h2]
            have hcc : c = cam := by
              rw [hcn2] at hcn
              rw [hcn] at hc
              exact Option.some.inj hc
            have hrcam : cam.recordOnMovement = true := by
              rw [← hcc]
              exact hr
            cases st <;> simp [hpr, hr, htm, hcc, hrcam, hmt, habs]
          · cases st with
            | false => simpa [hpr, hr, htm] using habs
            | true =>
              simp [hpr, hr, htm]
              split <;> split <;>
                first
                | exact timersGet_set_of_none _ hkey habs
                | exact habs
      · have hrf : c.recordOnMovement = false := by simpa using hr
        simpa [hpr, hrf] using habs

/-- No sequence of triggers ever creates a timer entry for a camera
whose lookup yields motionTimeout zero. -/
theorem runTriggers_preserves_absent {cameras : List Camera} {cname : String} {cam : Camera}
    (settings : GeneralSettings) (triggers : List (String × String × Bool))
    (hc : getCamera cameras cname = some cam)
    (hmt : cam.motionTimeout = 0) :
    ∀ timers, timersGet timers cam.name = none →
      timersGet (runTriggers cameras settings triggers timers) cam.name = none := by
  induction triggers with
  | nil => exact fun _ h => h
  | cons t rest ih =>
    intro timers h
    exact ih _ (handleMotion_preserves_absent settings t.1 t.2.1 t.2.2 timers hc hmt h)

/-! Claim theorems. -/

/-- C1, counterexample to the claim as stated: for an armed camera a
state true trigger does report the timeout-active skip, yet the timer
map after the call is NOT the map before the call: the entry is
deleted. -/
theorem C1_timer_unchanged_counterexample :
    (handleMotion [Camera.mk "Garage" true 10] (GeneralSettings.mk false [])
        "motion" "Garage" true [("Garage", 10)]).result.message =
      "Skip motion event, timeout active!" ∧
    (handleMotion [Camera.mk "Garage" true 10] (GeneralSettings.mk false [])
        "motion" "Garage" true [("Garage", 10)]).timers ≠ [("Garage", 10)] := by
  decide

/-- C1 as amended: for every armed camera with recordOnMovement true
that is not presence suppressed, a state true trigger is suppressed with
the timeout-active message and nothing reaches the event sink, but the
timer is cleared and its entry removed: the map after the call is the
map before with that camera entry deleted. -/
theorem C1_armed_true_clears_timer (cameras : List Camera) (settings : GeneralSettings)
    (tt cname : String) (timers : Timers) (cam : Camera) (d : Int)
    (hc : getCamera cameras cname = some cam)
    (hrom : cam.recordOnMovement = true)
    (hns : settings.atHome = true → cname ∈ settings.exclude)
    (harmed : timersGet timers cam.name = some d) :
    handleMotion cameras settings tt cname true timers =
      { result := { error := false, message := "Skip motion event, timeout active!" }
        timers := timersDelete timers cam.name
        emits := [(cname, tt, true)], sink := [] } :=
  handleMotion_armed_true cameras settings tt cname timers cam d hc hrom hns harmed

/-- C1 witness: the amended claim evaluated on the armed Garage
camera. -/
theorem C1_armed_true_clears_timer_witness :
    handleMotion [Camera.mk "Garage" true 10] (GeneralSettings.mk false [])
        "motion" "Garage" true [("Garage", 10)] =
      { result := { error := false, message := "Skip motion event, timeout active!" }
        timers := timersDelete [("Garage", 10)] "Garage"
        emits := [("Garage", "motion", true)], sink := [] } :=
  C1_armed_true_clears_timer [Camera.mk "Garage" true 10] (GeneralSettings.mk false [])
    "motion" "Garage" [("Garage", 10)] (Camera.mk "Garage" true 10) 10
    (by decide) (by decide) (by decide) (by decide)

/-- C2, counterexample to the claim as stated: a camera with negative
motionTimeout and recordOnMovement true DOES enter the armed state (the
effective timeout falls back to one second), and the following state
true trigger is suppressed. -/
theorem C2_negative_timeout_counterexample :
    timersGet (handleMotion [Camera.mk "Garage" true (-1)] (GeneralSettings.mk false [])
        "motion" "Garage" true []).timers "Garage" = some 1 ∧
    (handleMotion [Camera.mk "Garage" true (-1)] (GeneralSettings.mk false [])
        "motion" "Garage" true
        (handleMotion [Camera.mk "Garage" true (-1)] (GeneralSettings.mk false [])
          "motion" "Garage" true []).timers).result.message =
      "Skip motion event, timeout active!" ∧
    (handleMotion [Camera.mk "Garage" true (-1)] (GeneralSettings.mk false [])
        "motion" "Garage" true
        (handleMotion [Camera.mk "Garage" true (-1)] (GeneralSettings.mk false [])
          "motion" "Garage" true []).timers).sink = [] := by
  decide

/-- C2 as amended: for every camera with motionTimeout equal to zero and
recordOnMovement true, no sequence of triggers ever creates a timer
entry for it, and every state true trigger for it that passes presence
policy is forwarded to the event sink with the timer map unchanged. -/
theorem C2_zero_timeout_never_armed (cameras : List Camera) (settings : GeneralSettings)
    (cname : String) (cam : Camera)
    (hc : getCamera cameras cname = some cam)
    (hmt : cam.motionTimeout = 0)
    (hrom : cam.recordOnMovement = true) :
    (∀ triggers timers, timersGet timers cam.name = none →
      timersGet (runTriggers cameras settings triggers timers) cam.name = none) ∧
    (∀ tt timers, timersGet timers cam.name = none →
      (settings.atHome = true → cname ∈ settings.exclude) →
      handleMotion cameras settings tt cname true timers =
        { result := { error := false, message := "Handled through intern controller" }
          timers := timers
          emits := [(cname, tt, true)], sink := [(tt, cname, true)] }) := by
  constructor
  · intro triggers timers h
    exact runTriggers_preserves_absent settings triggers hc hmt timers h
  · intro tt timers hidle hns
    have h := handleMotion_idle cameras settings tt cname true timers cam hc hrom hns hidle
    rw [h]
    simp [hmt]

/-- C2 witness: two consecutive state true triggers for a zero-timeout
camera leave it without any timer entry. -/
theorem C2_zero_timeout_never_armed_witness :
    timersGet (runTriggers [Camera.mk "Garage" true 0] (GeneralSettings.mk false [])
      [("motion", "Garage", true), ("motion", "Garage", true)] []) "Garage" = none :=
  (C2_zero_timeout_never_armed [Camera.mk "Garage" true 0] (GeneralSettings.mk false [])
    "Garage" (Camera.mk "Garage" true 0) (by decide) (by decide) (by decide)).1
    [("motion", "Garage", true), ("motion", "Garage", true)] [] (by decide)

/-- C3, counterexample to the claim as stated: the reset while armed is
forwarded, but the returned message is NOT the intern one: the result
keeps the extern message set before the debounce branch. -/
theorem C3_intern_message_counterexample :
    (handleMotion [Camera.mk "Garage" true 10] (GeneralSettings.mk false [])
        "motion" "Garage" false [("Garage", 10)]).sink = [("motion", "Garage", false)] ∧
    (handleMotion [Camera.mk "Garage" true 10] (GeneralSettings.mk false [])
        "motion" "Garage" false [("Garage", 10)]).result.message ≠
      "Handled through intern controller" := by
  decide

/-- C3 as amended: a state false trigger for a known armed camera with
recordOnMovement true that is not presence suppressed clears and
removes the timer, forwards the reset to the event sink, and returns
error false with the message Handled through extern controller. -/
theorem C3_armed_reset_forwards (cameras : List Camera) (settings : GeneralSettings)
    (tt cname : String) (timers : Timers) (cam : Camera) (d : Int)
    (hc : getCamera cameras cname = some cam)
    (hrom : cam.recordOnMovement = true)
    (hns : settings.atHome = true → cname ∈ settings.exclude)
    (harmed : timersGet timers cam.name = some d) :
    handleMotion cameras settings tt cname false timers =
      { result := { error := false, message := "Handled through extern controller" }
        timers := timersDelete timers cam.name
        emits := [(cname, tt, false)], sink := [(tt, cname, false)] } :=
  handleMotion_armed_false cameras settings tt cname timers cam d hc hrom hns harmed

/-- C3 witness: the armed reset of the Garage scenario. -/
theorem C3_armed_reset_forwards_witness :
    handleMotion [Camera.mk "Garage" true 10] (GeneralSettings.mk false [])
        "motion" "Garage" false [("Garage", 10)] =
      { result := { error := false, message := "Handled through extern controller" }
        timers := timersDelete [("Garage", 10)] "Garage"
        emits := [("Garage", "motion", false)], sink := [("motion", "Garage", false)] } :=
  C3_armed_reset_forwards [Camera.mk "Garage" true 10] (GeneralSettings.mk false [])
    "motion" "Garage" [("Garage", 10)] (Camera.mk "Garage" true 10) 10
    (by decide) (by decide) (by decide) (by decide)

/-- C4: presence suppression: at home with the camera not excluded
returns the skip result, emits nothing, forwards nothing and leaves the
timer map unchanged, for every trigger. -/
theorem C4_at_home_suppression (cameras : List Camera) (settings : GeneralSettings)
    (tt cname : String) (st : Bool) (timers : Timers) (cam : Camera)
    (hc : getCamera cameras cname = some cam)
    (hah : settings.atHome = true)
    (hex : cname ∉ settings.exclude) :
    handleMotion cameras settings tt cname st timers =
      { result :=
          { error := false
            message := "Skip motion trigger. At Home is active and " ++ cname ++
              " is not excluded!" }
        timers := timers, emits := [], sink := [] } := by
  unfold handleMotion
  rw [hc]
  simp [hah, hex]

/-- C4 witness: the at-home scenario on the Garage camera. -/
theorem C4_at_home_suppression_witness :
    handleMotion [Camera.mk "Garage" true 10] (GeneralSettings.mk true [])
        "motion" "Garage" true [] =
      { result :=
          { error := false
            message := "Skip motion trigger. At Home is active and " ++ "Garage" ++
              " is not excluded!" }
        timers := [], emits := [], sink := [] } :=
  C4_at_home_suppression [Camera.mk "Garage" true 10] (GeneralSettings.mk true [])
    "motion" "Garage" true [] (Camera.mk "Garage" true 10)
    (by decide) (by decide) (by decide)

/-- C5: an unknown camera yields the not-found error and mutates
nothing: the timer map is returned unchanged and no emit or forward
happens. -/
theorem C5_unknown_camera (cameras : List Camera) (settings : GeneralSettings)
    (tt cname : String) (st : Bool) (timers : Timers)
    (hc : getCamera cameras cname = none) :
    handleMotion cameras settings tt cname st timers =
      { result :=
          { error := true
            message := "Camera " ++ squote ++ cname ++ squote ++ " not found" }
        timers := timers, emits := [], sink := [] } := by
  unfold handleMotion
  rw [hc]

/-- C5 witness: the unknown camera scenario. -/
theorem C5_unknown_camera_witness :
    handleMotion [Camera.mk "Garage" true 10] (GeneralSettings.mk false [])
        "motion" "Unknown" true [("Garage", 10)] =
      { result :=
          { error := true
            message := "Camera " ++ squote ++ "Unknown" ++ squote ++ " not found" }
        timers := [("Garage", 10)], emits := [], sink := [] } :=
  C5_unknown_camera [Camera.mk "Garage" true 10] (GeneralSettings.mk false [])
    "motion" "Unknown" true [("Garage", 10)] (by decide)

/-- C6: HTTP normalization: with a non-empty url, pathname and query, a
pathname containing /reset normalizes to trigger type motion with state
false, and any other pathname normalizes to its first path segment with
state true (the doorbell spelling included, through the dead dorbell
comparison); a request with a missing or empty pathname or query is
answered with the malformed URL result and never handed to the
resolver. -/
theorem C6_http_normalization (cameras : List Camera) (settings : GeneralSettings)
    (timers : Timers) (u p q : String) (hu : u ≠ "") (hp : p ≠ "") (hq : q ≠ "") :
    (jsIncludes p "/reset" = true →
      httpNormalize ⟨some u, some p, some q⟩ = some ("motion", q, false)) ∧
    (jsIncludes p "/reset" = false →
      httpNormalize ⟨some u, some p, some q⟩ =
        some (String.mk ((jsSplitChar p '/').getD 1 []), q, true)) ∧
    (∀ request : HttpRequest,
      jsTruthy request.pathname = false ∨ jsTruthy request.query = false →
      httpNormalize request = none ∧
      (httpOnRequest cameras settings request timers).2 = [] ∧
      (httpOnRequest cameras settings request timers).1 =
        { result := { error := true, message := "Malformed URL " ++ request.url.getD "undefined" }
          timers := timers, emits := [], sink := [] }) := by
  refine ⟨?_, ?_, ?_⟩
  · intro h
    simp [httpNormalize, jsTruthy, hu, hp, hq, h]
  · intro h
    have hne := seg1_reset_of_not_includes h
    simp only [List.getD, List.get?_eq_getElem?] at hne
    simp [httpNormalize, jsTruthy, hu, hp, hq, h]
    exact ⟨fun h2 => absurd h2 hne, Or.inr hne⟩
  · intro request hmal
    have hcond : (jsTruthy request.url &&
        (jsTruthy request.pathname && jsTruthy request.query)) = false := by
      rcases hmal with h1 | h1 <;> simp [h1]
    constructor
    · simp [httpNormalize, hcond]
    · constructor <;> simp [httpOnRequest, httpNormalize, hcond]

/-- C6 witness: the reset route of the Garage scenario, evaluated
through the theorem. -/
theorem C6_http_normalization_witness :
    httpNormalize ⟨some "/motion/reset?Garage", some "/motion/reset", some "Garage"⟩ =
      some ("motion", "Garage", false) :=
  (C6_http_normalization [] (GeneralSettings.mk false []) []
    "/motion/reset?Garage" "/motion/reset" "Garage"
    (by decide) (by decide) (by decide)).1 (by decide)

/-- C7: MQTT normalization: for a mapped topic the trigger type follows
mapping.motion, a doorbell trigger is unconditionally state true, a
reset mapping resolves state false exactly on the reset payload, a
non-reset motion mapping resolves on either configured payload, an
unresolved payload is answered with a diagnostic and never handed to
the resolver, and an unmapped topic likewise. -/
theorem C7_mqtt_normalization (cameras : List Camera) (settings : GeneralSettings)
    (topics : List (String × TopicMapping)) (topic message : String)
    (timers : Timers) (mapping : TopicMapping)
    (hm : topicsGet topics topic = some mapping) :
    (mapping.motion = false →
      mqttNormalize topics topic message = some ("doorbell", mapping.camera, some true)) ∧
    (mapping.motion = true → mapping.reset = true →
      mqttNormalize topics topic message =
        some ("motion", mapping.camera,
          if message = mapping.motionResetMessage then some false else none)) ∧
    (mapping.motion = true → mapping.reset = false →
      mqttNormalize topics topic message =
        some ("motion", mapping.camera,
          if message = mapping.motionMessage then some true
          else if message = mapping.motionResetMessage then some false
          else none)) ∧
    (∀ triggerType cameraName,
      mqttNormalize topics topic message = some (triggerType, cameraName, none) →
      (mqttOnMessage cameras settings topics topic message timers).2 = [] ∧
      (mqttOnMessage cameras settings topics topic message timers).1 =
        { result :=
            { error := true
              message := "The incoming MQTT message (" ++ message ++ ") for the topic (" ++
                topic ++ ") was not the same as set in config.json. Skip..." }
          timers := timers, emits := [], sink := [] }) ∧
    (∀ topic2, topicsGet topics topic2 = none →
      mqttNormalize topics topic2 message = none ∧
      (mqttOnMessage cameras settings topics topic2 message timers).2 = [] ∧
      (mqttOnMessage cameras settings topics topic2 message timers).1 =
        { result :=
            { error := true
              message := "Can not assign the MQTT topic (" ++ topic2 ++ ") to a camera!" }
          timers := timers, emits := [], sink := [] }) := by
  refine ⟨?_, ?_, ?_, ?_, ?_⟩
  · intro hmot
    simp [mqttNormalize, hm, hmot]
  · intro hmot hres
    simp [mqttNormalize, hm, hmot, hres]
  · intro hmot hres
    simp [mqttNormalize, hm, hmot, hres]
  · intro triggerType cameraName hnone
    constructor <;> simp [mqttOnMessage, hnone]
  · intro topic2 h2
    refine ⟨?_, ?_, ?_⟩ <;> simp [mqttNormalize, mqttOnMessage, h2]

/-- C7 witness: the configured ON payload of the Garage topic resolves
to a positive motion trigger, through the theorem. -/
theorem C7_mqtt_normalization_witness :
    mqttNormalize [("cam/Garage", TopicMapping.mk "Garage" true false "ON" "OFF")]
      "cam/Garage" "ON" = some ("motion", "Garage", some true) := by
  have h := (C7_mqtt_normalization [] (GeneralSettings.mk false [])
    [("cam/Garage", TopicMapping.mk "Garage" true false "ON" "OFF")] "cam/Garage" "ON" []
    (TopicMapping.mk "Garage" true false "ON" "OFF") (by decide)).2.2.1 rfl rfl
  rw [h]
  simp

/-- C8: for a known camera with recordOnMovement false that is not
presence suppressed, the debounce state is untouched and nothing reaches
the event sink; only the generic emit fires, and the result reports no
error. -/
theorem C8_record_off_no_debounce (cameras : List Camera) (settings : GeneralSettings)
    (tt cname : String) (st : Bool) (timers : Timers) (cam : Camera)
    (hc : getCamera cameras cname = some cam)
    (hrom : cam.recordOnMovement = false)
    (hns : settings.atHome = true → cname ∈ settings.exclude) :
    handleMotion cameras settings tt cname st timers =
      { result := { error := false, message := "Handled through extern controller" }
        timers := timers
        emits := [(cname, tt, st)], sink := [] } := by
  unfold handleMotion
  rw [hc]
  simp [hrom]
  exact hns

/-- C8 witness: a camera with recordOnMovement false, evaluated through
the theorem. -/
theorem C8_record_off_no_debounce_witness :
    handleMotion [Camera.mk "Porch" false 10] (GeneralSettings.mk false [])
        "motion" "Porch" true [("Porch", 3)] =
      { result := { error := false, message := "Handled through extern controller" }
        timers := [("Porch", 3)]
        emits := [("Porch", "motion", true)], sink := [] } :=
  C8_record_off_no_debounce [Camera.mk "Porch" false 10] (GeneralSettings.mk false [])
    "motion" "Porch" true [("Porch", 3)] (Camera.mk "Porch" false 10)
    (by decide) (by decide) (by decide)

/-- C9: for an idle camera with recordOnMovement true, not presence
suppressed, a state false trigger leaves the timer map unchanged and
succeeds, and processing it twice in a row returns the same full output
each time. -/
theorem C9_idle_reset_idempotent (cameras : List Camera) (settings : GeneralSettings)
    (tt cname : String) (timers : Timers) (cam : Camera)
    (hc : getCamera cameras cname = some cam)
    (hrom : cam.recordOnMovement = true)
    (hns : settings.atHome = true → cname ∈ settings.exclude)
    (hidle : timersGet timers cam.name = none) :
    (handleMotion cameras settings tt cname false timers).timers = timers ∧
    (handleMotion cameras settings tt cname false timers).result.error = false ∧
    handleMotion cameras settings tt cname false
        ((handleMotion cameras settings tt cname false timers).timers) =
      handleMotion cameras settings tt cname false timers := by
  have h : handleMotion cameras settings tt cname false timers =
      { result := { error := false, message := "Handled through intern controller" }
        timers := timers
        emits := [(cname, tt, false)], sink := [(tt, cname, false)] } := by
    have h0 := handleMotion_idle cameras settings tt cname false timers cam hc hrom hns hidle
    rw [h0]
    simp
  refine ⟨by rw [h], by rw [h], ?_⟩
  rw [h]
  exact h

/-- C9 witness: the double reset while idle, evaluated through the
theorem. -/
theorem C9_idle_reset_idempotent_witness :
    (handleMotion [Camera.mk "Garage" true 10] (GeneralSettings.mk false [])
        "motion" "Garage" false []).timers = [] ∧
    (handleMotion [Camera.mk "Garage" true 10] (GeneralSettings.mk false [])
        "motion" "Garage" false []).result.error = false ∧
    handleMotion [Camera.mk "Garage" true 10] (GeneralSettings.mk false [])
        "motion" "Garage" false
        ((handleMotion [Camera.mk "Garage" true 10] (GeneralSettings.mk false [])
          "motion" "Garage" false []).timers) =
      handleMotion [Camera.mk "Garage" true 10] (GeneralSettings.mk false [])
        "motion" "Garage" false [] :=
  C9_idle_reset_idempotent [Camera.mk "Garage" true 10] (GeneralSettings.mk false [])
    "motion" "Garage" [] (Camera.mk "Garage" true 10)
    (by decide) (by decide) (by decide) (by decide)

/-- C10: after any trigger processed while armed the camera entry is
absent, so the immediately following state true trigger observes the
idle state and is forwarded to the event sink with the intern result:
each arming suppresses at most one positive trigger. -/
theorem C10_armed_entry_cleared_then_forward (cameras : List Camera)
    (settings : GeneralSettings) (tt cname : String) (timers : Timers) (cam : Camera) (d : Int)
    (hc : getCamera cameras cname = some cam)
    (hrom : cam.recordOnMovement = true)
    (hns : settings.atHome = true → cname ∈ settings.exclude)
    (harmed : timersGet timers cam.name = some d) :
    (∀ st, timersGet (handleMotion cameras settings tt cname st timers).timers cam.name = none) ∧
    (∀ st tt2,
      (handleMotion cameras settings tt2 cname true
        ((handleMotion cameras settings tt cname st timers).timers)).sink =
        [(tt2, cname, true)] ∧
      (handleMotion cameras settings tt2 cname true
        ((handleMotion cameras settings tt cname st timers).timers)).result =
        { error := false, message := "Handled through intern controller" }) := by
  have hdel : ∀ st : Bool, (handleMotion cameras settings tt cname st timers).timers =
      timersDelete timers cam.name := by
    intro st
    cases st
    · rw [handleMotion_armed_false cameras settings tt cname timers cam d hc hrom hns harmed]
    · rw [handleMotion_armed_true cameras settings tt cname timers cam d hc hrom hns harmed]
  constructor
  · intro st
    rw [hdel st]
    exact timersGet_delete_self timers cam.name
  · intro st tt2
    have hidle : timersGet ((handleMotion cameras settings tt cname st timers).timers)
        cam.name = none := by
      rw [hdel st]
      exact timersGet_delete_self timers cam.name
    have h2 := handleMotion_idle cameras settings tt2 cname true _ cam hc hrom hns hidle
    rw [h2]
    exact ⟨rfl, rfl⟩

/-- C10 witness: the positive trigger right after a suppressed one is
forwarded, evaluated through the theorem. -/
theorem C10_armed_entry_cleared_then_forward_witness :
    (handleMotion [Camera.mk "Garage" true 10] (GeneralSettings.mk false [])
      "motion" "Garage" true
      ((handleMotion [Camera.mk "Garage" true 10] (GeneralSettings.mk false [])
        "motion" "Garage" true [("Garage", 10)]).timers)).sink =
      [("motion", "Garage", true)] :=
  ((C10_armed_entry_cleared_then_forward [Camera.mk "Garage" true 10]
    (GeneralSettings.mk false []) "motion" "Garage" [("Garage", 10)]
    (Camera.mk "Garage" true 10) 10
    (by decide) (by decide) (by decide) (by decide)).2 true "motion").1

end MotionControllerModel
